import Mathlib

/-!
Verification of the todo-backend service and transport layers.

Shallow embedding of `internal/service/todo_service.go`,
`internal/server/routes.go` and the repository contract of
`internal/repository/todo_repository.go`.  The repository (a GORM-backed
store) is modelled as explicit behaviour parameters: each service operation
takes the outcome of the repository primitives it may call, and returns the
Go result together with the list of repository operations it actually
invoked.  Go `error` values are plain strings (the service builds them with
`errors.New` / `fmt.Errorf`); the only repository primitive that can report
`gorm.ErrRecordNotFound` is `FindByID` (in the GORM repository, `First` is
the sole call producing that error; `Create`/`Save`/`Delete` surface opaque
store errors the service never inspects), so `FindByID` outcomes carry a
structured error while the other primitives carry opaque messages.
-/

deriving instance DecidableEq for Except

namespace TodoBackend

/-- The `domain.Todo` entity.  The `internal/domain` file is not part of the
sources, but every field is fixed by its uses in the service layer
(`ID`, `Title`, `Completed`, `UserID`, `CreatedAt`, `UpdatedAt`); timestamps
are abstracted as naturals. -/
structure Todo where
  id : Nat
  title : String
  completed : Bool
  userID : Nat
  createdAt : Nat
  updatedAt : Nat
deriving DecidableEq, Repr

/-- Stand-in for `time.Time.Format(time.RFC3339)`: an injective rendering of
the abstract timestamp. -/
def formatRFC3339 (t : Nat) : String := toString t

/-- `service.CreateTodoRequest`. -/
structure CreateTodoRequest where
  title : String
  userID : Nat
deriving DecidableEq, Repr

/-- `service.UpdateTodoRequest`: pointer fields become `Option`, so a field
is either absent (`none`) or present with a value (`some`). -/
structure UpdateTodoRequest where
  title : Option String
  completed : Option Bool
deriving DecidableEq, Repr

/-- `service.TodoResponse`. -/
structure TodoResponse where
  id : Nat
  title : String
  completed : Bool
  userID : Nat
  createdAt : String
  updatedAt : String
deriving DecidableEq, Repr

/-- Outcome of `repository.FindByID`: GORM's `First` either finds the record,
reports `gorm.ErrRecordNotFound`, or fails with some other store error. -/
inductive FindResult where
  | found (todo : Todo)
  | recordNotFound
  | storeError (msg : String)
deriving DecidableEq, Repr

/-- The repository primitives the service can invoke, recorded as a trace. -/
inductive RepoOp where
  | create
  | findByID (id : Nat)
  | getAll
  | update
  | delete (id : Nat)
deriving DecidableEq, Repr

/-- The fields GORM populates on the entity during a successful `Create`
(`ID`, `CreatedAt`, `UpdatedAt`). -/
structure StoreAssigned where
  id : Nat
  createdAt : Nat
  updatedAt : Nat
deriving DecidableEq, Repr

/-- The response-DTO construction repeated at every success site of the
service (`&TodoResponse{ID: ..., ..., UpdatedAt: ...Format(time.RFC3339)}`). -/
def todoToResponse (t : Todo) : TodoResponse :=
  { id := t.id,
    title := t.title,
    completed := t.completed,
    userID := t.userID,
    createdAt := formatRFC3339 t.createdAt,
    updatedAt := formatRFC3339 t.updatedAt }

/-- `todoService.CreateTodo`.  `rcreate` models `repo.Create`: on success the
store populates id and timestamps of the inserted entity, on failure it
returns a store error message. -/
def CreateTodo (rcreate : Todo → Except String StoreAssigned)
    (req : CreateTodoRequest) :
    Except String TodoResponse × List RepoOp :=
  if req.title = "" then
    (Except.error "title cannot be empty", [])
  else
    let newTodo : Todo :=
      { id := 0, title := req.title, completed := false,
        userID := req.userID, createdAt := 0, updatedAt := 0 }
    match rcreate newTodo with
    | Except.error _ =>
        (Except.error "failed to create todo item", [RepoOp.create])
    | Except.ok a =>
        (Except.ok (todoToResponse
          { newTodo with
            id := a.id
            createdAt := a.createdAt
            updatedAt := a.updatedAt }), [RepoOp.create])

/-- `todoService.GetTodoByID`.  `rfind` models `repo.FindByID`. -/
def GetTodoByID (rfind : Nat → FindResult) (id : Nat) :
    Except String TodoResponse × List RepoOp :=
  match rfind id with
  | FindResult.recordNotFound =>
      (Except.error ("todo with ID " ++ toString id ++ " not found"),
        [RepoOp.findByID id])
  | FindResult.storeError _ =>
      (Except.error "failed to retrieve todo item", [RepoOp.findByID id])
  | FindResult.found todo =>
      (Except.ok (todoToResponse todo), [RepoOp.findByID id])

/-- `todoService.GetAllTodos`.  `rgetAll` models `repo.GetAll`. -/
def GetAllTodos (rgetAll : Except String (List Todo)) :
    Except String (List TodoResponse) × List RepoOp :=
  match rgetAll with
  | Except.error _ =>
      (Except.error "failed to retrieve todo items", [RepoOp.getAll])
  | Except.ok todos =>
      (Except.ok (todos.map todoToResponse), [RepoOp.getAll])

/-- `todoService.UpdateTodo`.  `rfind` models `repo.FindByID`, `rupdate`
models `repo.Update` (`none` = success, `some msg` = store error).  The two
reconciliation branches mirror the Go code: a present, non-empty, changed
title is applied and sets `updated`; a present, changed completed flag is
applied and sets `updated`; if `updated` stays false the current entity is
returned without contacting the store again. -/
def UpdateTodo (rfind : Nat → FindResult) (rupdate : Todo → Option String)
    (id : Nat) (req : UpdateTodoRequest) :
    Except String TodoResponse × List RepoOp :=
  match rfind id with
  | FindResult.recordNotFound =>
      (Except.error ("todo with ID " ++ toString id ++ " not found for update"),
        [RepoOp.findByID id])
  | FindResult.storeError _ =>
      (Except.error "failed to retrieve todo item for update",
        [RepoOp.findByID id])
  | FindResult.found existingTodo =>
      let step1 : Todo × Bool :=
        match req.title with
        | some t =>
            if t ≠ "" ∧ t ≠ existingTodo.title then
              ({ existingTodo with title := t }, true)
            else (existingTodo, false)
        | none => (existingTodo, false)
      let step2 : Todo × Bool :=
        match req.completed with
        | some c =>
            if c ≠ step1.1.completed then ({ step1.1 with completed := c }, true)
            else step1
        | none => step1
      if step2.2 = false then
        (Except.ok (todoToResponse existingTodo), [RepoOp.findByID id])
      else
        match rupdate step2.1 with
        | some _ =>
            (Except.error "failed to update todo item",
              [RepoOp.findByID id, RepoOp.update])
        | none =>
            (Except.ok (todoToResponse step2.1),
              [RepoOp.findByID id, RepoOp.update])

/-- `todoService.DeleteTodo`.  `rfind` models `repo.FindByID` (the existence
check), `rdelete` models `repo.Delete` (`none` = success). -/
def DeleteTodo (rfind : Nat → FindResult) (rdelete : Nat → Option String)
    (id : Nat) : Except String Unit × List RepoOp :=
  match rfind id with
  | FindResult.recordNotFound =>
      (Except.error
        ("todo with ID " ++ toString id ++ " not found for deletion"),
        [RepoOp.findByID id])
  | FindResult.storeError _ =>
      (Except.error "failed to check todo item before deletion",
        [RepoOp.findByID id])
  | FindResult.found _ =>
      match rdelete id with
      | some _ =>
          (Except.error "failed to delete todo item",
            [RepoOp.findByID id, RepoOp.delete id])
      | none =>
          (Except.ok (), [RepoOp.findByID id, RepoOp.delete id])

/-! ## Transport layer (`internal/server/routes.go`) -/

/-- `strconv.ParseUint(idStr, 10, 64)`: succeeds exactly on a non-empty
all-decimal-digit string (no sign prefix in `ParseUint`) whose value fits in
64 bits; Go's range overflow is an error, modelled as `none`. -/
def parseUint64 (s : String) : Option Nat :=
  if !s.data.isEmpty && s.data.all Char.isDigit then
    let n := s.data.foldl (fun acc c => acc * 10 + (c.toNat - 48)) 0
    if n < 2 ^ 64 then some n else none
  else none

/-- The decode outcome categories of `json.Decoder.Decode` with
`DisallowUnknownFields`, as distinguished by `createTodoHandler`:
`*json.SyntaxError`, `io.ErrUnexpectedEOF`, `*json.UnmarshalTypeError`,
the `json: unknown field ...` error (its payload is the field name as the
`TrimPrefix` leaves it, quotes included), `io.EOF` for an empty body, and
any other decode error. -/
inductive DecodeError where
  | syntaxError (offset : Nat)
  | unexpectedEOF
  | unmarshalTypeError (field : String) (offset : Nat)
  | unknownField (fieldName : String)
  | eof
  | other (msg : String)
deriving DecidableEq, Repr

/-- The body a handler writes: `respondWithError` wraps a message in an
error object, success paths encode the DTO payload, `DELETE` writes no
body. -/
inductive HttpBody where
  | errorObj (msg : String)
  | todoJson (t : TodoResponse)
  | todoListJson (ts : List TodoResponse)
  | empty
deriving DecidableEq, Repr

/-- An HTTP response: status code and body. -/
structure HttpResponse where
  status : Nat
  body : HttpBody
deriving DecidableEq, Repr

/-- Go's `%q` rendering of a field name (escaping of exotic characters is
not modelled; the field names in play contain none). -/
def goQuote (s : String) : String := "\"" ++ s ++ "\""

/-- The `fmt.Sprintf` for a `*json.SyntaxError` in `createTodoHandler`. -/
def syntaxErrMsg (off : Nat) : String :=
  "Request body contains badly-formed JSON (at position " ++
    toString off ++ ")"

/-- The `fmt.Sprintf` for a `*json.UnmarshalTypeError` in
`createTodoHandler`. -/
def typeErrMsg (f : String) (off : Nat) : String :=
  "Request body contains an invalid value for the " ++ goQuote f ++
    " field (at position " ++ toString off ++ ")"

/-- The `fmt.Sprintf` for a `json: unknown field` error in
`createTodoHandler`. -/
def unknownFieldMsg (name : String) : String :=
  "Request body contains unknown field " ++ name

/-- The decode-error dispatch of `createTodoHandler` (routes.go lines
68-91): each category gets its own message; only the `other` category is a
500. -/
def createDecodeErrorResponse : DecodeError → HttpResponse
  | DecodeError.syntaxError off =>
      ⟨400, HttpBody.errorObj (syntaxErrMsg off)⟩
  | DecodeError.unexpectedEOF =>
      ⟨400, HttpBody.errorObj "Request body contains badly-formed JSON"⟩
  | DecodeError.unmarshalTypeError f off =>
      ⟨400, HttpBody.errorObj (typeErrMsg f off)⟩
  | DecodeError.unknownField name =>
      ⟨400, HttpBody.errorObj (unknownFieldMsg name)⟩
  | DecodeError.eof =>
      ⟨400, HttpBody.errorObj "Request body must not be empty"⟩
  | DecodeError.other _ =>
      ⟨500, HttpBody.errorObj "Error processing request"⟩

/-- The substring dispatch `strings.Contains(err.Error(), "not found")` used
by the id-based handlers. -/
def mentionsNotFound (s : String) : Prop :=
  "not found".data <:+: s.data

instance (s : String) : Decidable (mentionsNotFound s) :=
  inferInstanceAs (Decidable ("not found".data <:+: s.data))

/-- `createTodoHandler`.  Inputs: the decode outcome of the request body and
the `repo.Create` behaviour.  The `Bool` records whether the service was
invoked. -/
def createTodoHandler (rcreate : Todo → Except String StoreAssigned)
    (decoded : Except DecodeError CreateTodoRequest) :
    HttpResponse × Bool :=
  match decoded with
  | Except.error e => (createDecodeErrorResponse e, false)
  | Except.ok req =>
      match (CreateTodo rcreate req).1 with
      | Except.error m =>
          if m = "title cannot be empty" then
            (⟨400, HttpBody.errorObj m⟩, true)
          else (⟨500, HttpBody.errorObj "Failed to create todo"⟩, true)
      | Except.ok resp => (⟨201, HttpBody.todoJson resp⟩, true)

/-- `getAllTodosHandler`. -/
def getAllTodosHandler (rgetAll : Except String (List Todo)) : HttpResponse :=
  match (GetAllTodos rgetAll).1 with
  | Except.error _ => ⟨500, HttpBody.errorObj "Failed to retrieve todos"⟩
  | Except.ok ts => ⟨200, HttpBody.todoListJson ts⟩

/-- `getTodoByIDHandler`: parse the path id (reject parse failure or zero
with 400 before calling the service), then dispatch the service result. -/
def getTodoByIDHandler (rfind : Nat → FindResult) (idStr : String) :
    HttpResponse × Bool :=
  match parseUint64 idStr with
  | none => (⟨400, HttpBody.errorObj "Invalid todo ID provided"⟩, false)
  | some id =>
      if id = 0 then (⟨400, HttpBody.errorObj "Invalid todo ID provided"⟩, false)
      else
        match (GetTodoByID rfind id).1 with
        | Except.error m =>
            if mentionsNotFound m then (⟨404, HttpBody.errorObj m⟩, true)
            else (⟨500, HttpBody.errorObj "Failed to retrieve todo"⟩, true)
        | Except.ok t => (⟨200, HttpBody.todoJson t⟩, true)

/-- `updateTodoHandler`: parse the path id, then decode the body — any
decode error is answered with the one generic message — then dispatch the
service result. -/
def updateTodoHandler (rfind : Nat → FindResult)
    (rupdate : Todo → Option String) (idStr : String)
    (decoded : Except DecodeError UpdateTodoRequest) :
    HttpResponse × Bool :=
  match parseUint64 idStr with
  | none => (⟨400, HttpBody.errorObj "Invalid todo ID provided"⟩, false)
  | some id =>
      if id = 0 then (⟨400, HttpBody.errorObj "Invalid todo ID provided"⟩, false)
      else
        match decoded with
        | Except.error _ =>
            (⟨400, HttpBody.errorObj "Invalid request body"⟩, false)
        | Except.ok req =>
            match (UpdateTodo rfind rupdate id req).1 with
            | Except.error m =>
                if mentionsNotFound m then (⟨404, HttpBody.errorObj m⟩, true)
                else (⟨500, HttpBody.errorObj "Failed to update todo"⟩, true)
            | Except.ok t => (⟨200, HttpBody.todoJson t⟩, true)

/-- `deleteTodoHandler`. -/
def deleteTodoHandler (rfind : Nat → FindResult)
    (rdelete : Nat → Option String) (idStr : String) :
    HttpResponse × Bool :=
  match parseUint64 idStr with
  | none => (⟨400, HttpBody.errorObj "Invalid todo ID provided"⟩, false)
  | some id =>
      if id = 0 then (⟨400, HttpBody.errorObj "Invalid todo ID provided"⟩, false)
      else
        match (DeleteTodo rfind rdelete id).1 with
        | Except.error m =>
            if mentionsNotFound m then (⟨404, HttpBody.errorObj m⟩, true)
            else (⟨500, HttpBody.errorObj "Failed to delete todo"⟩, true)
        | Except.ok _ => (⟨204, HttpBody.empty⟩, true)

/-! ## Concrete store behaviours, used to instantiate theorems -/

/-- A store whose insert succeeds, assigning id 1 and timestamp 5. -/
def rcreateOk : Todo → Except String StoreAssigned :=
  fun _ => Except.ok ⟨1, 5, 5⟩

/-- A concrete stored entity. -/
def sampleTodo : Todo := ⟨1, "buy milk", false, 2, 5, 5⟩

/-- The same entity already marked completed. -/
def sampleDone : Todo := ⟨1, "buy milk", true, 2, 5, 5⟩

/-- A store holding `sampleTodo` under id 1 and nothing else. -/
def rfindSample : Nat → FindResult := fun i =>
  if i = 1 then FindResult.found sampleTodo else FindResult.recordNotFound

/-- A store holding `sampleDone` under id 1 and nothing else. -/
def rfindDone : Nat → FindResult := fun i =>
  if i = 1 then FindResult.found sampleDone else FindResult.recordNotFound

/-- A store whose save always succeeds. -/
def rupdateOk : Todo → Option String := fun _ => none

/-- A store whose delete always succeeds. -/
def rdeleteOk : Nat → Option String := fun _ => none

/-! ## Helper lemmas -/

/-- `String.append` concatenates the character data. -/
theorem string_data_append (s t : String) : (s ++ t).data = s.data ++ t.data :=
  rfl

/-- A string whose data splits around `sub`'s data contains `sub`. -/
theorem substring_of_parts (sub s : String) (l r : List Char)
    (h : s.data = l ++ sub.data ++ r) : sub.data <:+: s.data := by
  rw [h]; exact List.infix_append _ _ _

/-- Two strings differing at one character position are distinct. -/
theorem data_ne_of_getElem (s t : String) (k : Nat) (c₁ c₂ : Char)
    (h₁ : s.data[k]? = some c₁) (h₂ : t.data[k]? = some c₂)
    (hne : c₁ ≠ c₂) : s ≠ t := by
  intro hEq
  rw [hEq] at h₁
  rw [h₁] at h₂
  exact hne (Option.some.inj h₂)

/-- Indexing within the left part of an append. -/
theorem getElem_append_left_of_some (l₁ l₂ : List Char) (k : Nat) (c : Char)
    (hk : l₁[k]? = some c) : (l₁ ++ l₂)[k]? = some c := by
  have h : k < l₁.length := by
    by_contra hcon
    rw [List.getElem?_eq_none (Nat.le_of_not_lt hcon)] at hk
    exact Option.noConfusion hk
  rw [List.getElem?_append_left h]; exact hk

/-! ## Claims -/

/-- C1 (counterexample): a request whose title is a single space — a
whitespace-only, non-empty title — is not rejected by `CreateTodo`'s
validation, and the repository create is invoked; this refutes the claim
that every whitespace-only title yields the validation error and never
reaches the store. -/
theorem createTodo_whitespace_reaches_store :
    (" ".data.all Char.isWhitespace = true) ∧
    (CreateTodo rcreateOk ⟨" ", 0⟩).1 ≠ Except.error "title cannot be empty" ∧
    (CreateTodo rcreateOk ⟨" ", 0⟩).2 = [RepoOp.create] := by
  refine ⟨by decide, by decide, by decide⟩

/-- C1 (amended): `CreateTodo` returns the validation error exactly when the
title is the empty string: an empty title fails with the validation error
and the repository is never invoked, while any non-empty title —
whitespace-only titles included — never produces the validation error and
the repository create is invoked. -/
theorem createTodo_validation_empty_only
    (rcreate : Todo → Except String StoreAssigned) (req : CreateTodoRequest) :
    (req.title = "" →
      CreateTodo rcreate req = (Except.error "title cannot be empty", [])) ∧
    (req.title ≠ "" →
      (CreateTodo rcreate req).1 ≠ Except.error "title cannot be empty" ∧
      (CreateTodo rcreate req).2 = [RepoOp.create]) := by
  constructor
  · intro h
    simp [CreateTodo, h]
  · intro h
    simp only [CreateTodo, if_neg h]
    cases hr : rcreate { id := 0, title := req.title, completed := false, userID := req.userID, createdAt := 0, updatedAt := 0 } with
    | error e => exact ⟨by simp, rfl⟩
    | ok a => exact ⟨by simp, rfl⟩

/-- C1 witness: the amended theorem applied at two concrete requests. -/
theorem createTodo_validation_empty_only_witness :
    CreateTodo rcreateOk ⟨"", 0⟩ = (Except.error "title cannot be empty", []) ∧
    (CreateTodo rcreateOk ⟨"buy milk", 0⟩).2 = [RepoOp.create] :=
  ⟨(createTodo_validation_empty_only rcreateOk ⟨"", 0⟩).1 rfl,
   ((createTodo_validation_empty_only rcreateOk ⟨"buy milk", 0⟩).2
      (by decide)).2⟩

/-- C3: title reconciliation of `UpdateTodo` on an existing entity: a
present, non-empty title different from the current one is applied and
marks the entity dirty (the store update runs and the response carries the
new title); a present empty title is a no-op for the title field —
equivalent to an absent title, hence not an error, and any other
present-and-changed field is still applied; an absent title leaves the
title untouched. -/
theorem updateTodo_title_reconciliation (ex : Todo) (ru : Todo → Option String)
    (rf : Nat → FindResult) (id : Nat) (t : String) (c : Option Bool) (b : Bool)
    (hrf : rf id = FindResult.found ex) :
    (t ≠ "" → t ≠ ex.title → ru { ex with title := t } = none →
      UpdateTodo rf ru id ⟨some t, none⟩ =
        (Except.ok (todoToResponse { ex with title := t }),
          [RepoOp.findByID id, RepoOp.update])) ∧
    (UpdateTodo rf ru id ⟨some "", c⟩ = UpdateTodo rf ru id ⟨none, c⟩) ∧
    (b ≠ ex.completed → ru { ex with completed := b } = none →
      UpdateTodo rf ru id ⟨some "", some b⟩ =
        (Except.ok (todoToResponse { ex with completed := b }),
          [RepoOp.findByID id, RepoOp.update])) ∧
    (UpdateTodo rf ru id ⟨none, none⟩ =
      (Except.ok (todoToResponse ex), [RepoOp.findByID id])) := by
  refine ⟨?_, ?_, ?_, ?_⟩
  · intro h1 h2 h3
    simp [UpdateTodo, hrf, h1, h2, h3]
  · simp [UpdateTodo, hrf]
  · intro h1 h2
    simp [UpdateTodo, hrf, h1, h2]
  · simp [UpdateTodo, hrf]

/-- C3 witness: the theorem applied to a concrete store: a changed title is
persisted, and a present empty title behaves exactly like an absent one. -/
theorem updateTodo_title_reconciliation_witness :
    UpdateTodo rfindSample rupdateOk 1 ⟨some "walk dog", none⟩ =
      (Except.ok (todoToResponse { sampleTodo with title := "walk dog" }),
        [RepoOp.findByID 1, RepoOp.update]) ∧
    UpdateTodo rfindSample rupdateOk 1 ⟨some "", none⟩ =
      UpdateTodo rfindSample rupdateOk 1 ⟨none, none⟩ ∧
    UpdateTodo rfindSample rupdateOk 1 ⟨some "", some true⟩ =
      (Except.ok (todoToResponse { sampleTodo with completed := true }),
        [RepoOp.findByID 1, RepoOp.update]) :=
  ⟨(updateTodo_title_reconciliation sampleTodo rupdateOk rfindSample 1
      "walk dog" none true (by decide)).1 (by decide) (by decide) rfl,
   (updateTodo_title_reconciliation sampleTodo rupdateOk rfindSample 1
      "walk dog" none true (by decide)).2.1,
   (updateTodo_title_reconciliation sampleTodo rupdateOk rfindSample 1
      "walk dog" none true (by decide)).2.2.1 (by decide) rfl⟩

/-- C4: completed reconciliation of `UpdateTodo` on an existing entity: a
present value different from the current one is applied and marks the
entity dirty — including a present `false` overwriting a current `true` —
while a present value equal to the current one is no dirty change for that
field, so persistence runs only if some other present field changed. -/
theorem updateTodo_completed_reconciliation (ex : Todo)
    (ru : Todo → Option String) (rf : Nat → FindResult) (id : Nat)
    (b : Bool) (t : String) (hrf : rf id = FindResult.found ex) :
    (b ≠ ex.completed → ru { ex with completed := b } = none →
      UpdateTodo rf ru id ⟨none, some b⟩ =
        (Except.ok (todoToResponse { ex with completed := b }),
          [RepoOp.findByID id, RepoOp.update])) ∧
    (b = ex.completed →
      UpdateTodo rf ru id ⟨none, some b⟩ =
        (Except.ok (todoToResponse ex), [RepoOp.findByID id])) ∧
    (b = ex.completed → t ≠ "" → t ≠ ex.title →
      ru { ex with title := t } = none →
      UpdateTodo rf ru id ⟨some t, some b⟩ =
        (Except.ok (todoToResponse { ex with title := t }),
          [RepoOp.findByID id, RepoOp.update])) := by
  refine ⟨?_, ?_, ?_⟩
  · intro h1 h2
    simp [UpdateTodo, hrf, h1, h2]
  · intro h1
    simp [UpdateTodo, hrf, h1]
  · intro h1 h2 h3 h4
    simp [UpdateTodo, hrf, h1, h2, h3, h4]

/-- C4 witness: a present `false` overwrites a stored `true` and is
persisted; a present `false` on a stored `false` leaves the trace without a
store update. -/
theorem updateTodo_completed_reconciliation_witness :
    UpdateTodo rfindDone rupdateOk 1 ⟨none, some false⟩ =
      (Except.ok (todoToResponse { sampleDone with completed := false }),
        [RepoOp.findByID 1, RepoOp.update]) ∧
    UpdateTodo rfindSample rupdateOk 1 ⟨none, some false⟩ =
      (Except.ok (todoToResponse sampleTodo), [RepoOp.findByID 1]) ∧
    UpdateTodo rfindSample rupdateOk 1 ⟨some "walk dog", some false⟩ =
      (Except.ok (todoToResponse { sampleTodo with title := "walk dog" }),
        [RepoOp.findByID 1, RepoOp.update]) :=
  ⟨(updateTodo_completed_reconciliation sampleDone rupdateOk rfindDone 1
      false "x" (by decide)).1 (by decide) rfl,
   (updateTodo_completed_reconciliation sampleTodo rupdateOk rfindSample 1
      false "x" (by decide)).2.1 rfl,
   (updateTodo_completed_reconciliation sampleTodo rupdateOk rfindSample 1
      false "walk dog" (by decide)).2.2 rfl (by decide) (by decide) rfl⟩

/-- C5: when no field of an `UpdateTodo` request ends up dirty (absent, or
present but empty title, or present but unchanged values), the operation
touches the repository only for the initial load — the trace is exactly the
`findByID` — and returns the response built from the unchanged current
entity, so its `updatedAt` rendering is that of the stored entity. -/
theorem updateTodo_noop_returns_current (ex : Todo) (ru : Todo → Option String)
    (rf : Nat → FindResult) (id : Nat) (req : UpdateTodoRequest)
    (hrf : rf id = FindResult.found ex)
    (htitle : req.title = none ∨ req.title = some "" ∨
      req.title = some ex.title)
    (hcomp : req.completed = none ∨ req.completed = some ex.completed) :
    UpdateTodo rf ru id req =
      (Except.ok (todoToResponse ex), [RepoOp.findByID id]) := by
  obtain ⟨rt, rc⟩ := req
  rcases htitle with h | h | h <;> rcases hcomp with h2 | h2 <;>
    simp only at h h2 <;> subst h <;> subst h2 <;> simp [UpdateTodo, hrf]

/-- C5 witness: the empty update on a concrete store loads once and returns
the current state. -/
theorem updateTodo_noop_returns_current_witness :
    UpdateTodo rfindSample rupdateOk 1 ⟨none, none⟩ =
      (Except.ok (todoToResponse sampleTodo), [RepoOp.findByID 1]) :=
  updateTodo_noop_returns_current sampleTodo rupdateOk rfindSample 1
    ⟨none, none⟩ (by decide) (Or.inl rfl) (Or.inl rfl)

/-- C6: `DeleteTodo` performs the existence check first: whenever `findByID`
reports no live record, it returns the not-found error and the trace shows
only the `findByID` — the delete primitive is never invoked.  In particular
deleting a non-existent id yields the not-found error, and a second delete
of an id whose record is gone does too. -/
theorem deleteTodo_checks_existence_first (rf : Nat → FindResult)
    (rd : Nat → Option String) (id : Nat)
    (h : rf id = FindResult.recordNotFound) :
    DeleteTodo rf rd id =
      (Except.error
        ("todo with ID " ++ toString id ++ " not found for deletion"),
        [RepoOp.findByID id]) := by
  simp [DeleteTodo, h]

/-- C6 witness: deleting id 7 from a store that has no record of it. -/
theorem deleteTodo_checks_existence_first_witness :
    DeleteTodo rfindSample rdeleteOk 7 =
      (Except.error
        ("todo with ID " ++ toString 7 ++ " not found for deletion"),
        [RepoOp.findByID 7]) :=
  deleteTodo_checks_existence_first rfindSample rdeleteOk 7 (by decide)

/-- C7: the GET/PUT/DELETE `/todos/id` handlers accept the path id only when
it parses as a positive integer: when `strconv.ParseUint` fails (non-numeric
or out of range) or yields zero, each handler answers 400 with the fixed
invalid-id message and the service is never invoked; when it yields a
positive integer, the corresponding service operation is invoked (for PUT,
once the body also decodes). -/
theorem handlers_id_validation (idStr : String) (rf : Nat → FindResult)
    (ru : Todo → Option String) (rd : Nat → Option String)
    (dec : Except DecodeError UpdateTodoRequest) :
    ((parseUint64 idStr = none ∨ parseUint64 idStr = some 0) →
      getTodoByIDHandler rf idStr =
        (⟨400, HttpBody.errorObj "Invalid todo ID provided"⟩, false) ∧
      updateTodoHandler rf ru idStr dec =
        (⟨400, HttpBody.errorObj "Invalid todo ID provided"⟩, false) ∧
      deleteTodoHandler rf rd idStr =
        (⟨400, HttpBody.errorObj "Invalid todo ID provided"⟩, false)) ∧
    (∀ n, parseUint64 idStr = some n → n ≠ 0 →
      (getTodoByIDHandler rf idStr).2 = true ∧
      (deleteTodoHandler rf rd idStr).2 = true ∧
      ∀ req, dec = Except.ok req →
        (updateTodoHandler rf ru idStr dec).2 = true) := by
  constructor
  · rintro (h | h) <;>
      simp [getTodoByIDHandler, updateTodoHandler, deleteTodoHandler, h]
  · intro n hn hne
    refine ⟨?_, ?_, ?_⟩
    · simp only [getTodoByIDHandler, hn, if_neg hne]
      rcases (GetTodoByID rf n).1 with m | t <;> simp [apply_ite]
    · simp only [deleteTodoHandler, hn, if_neg hne]
      rcases (DeleteTodo rf rd n).1 with m | u <;> simp [apply_ite]
    · intro req hreq
      subst hreq
      simp only [updateTodoHandler, hn, if_neg hne]
      rcases (UpdateTodo rf ru n req).1 with m | t <;> simp [apply_ite]

/-- C7 witness: the zero id and a non-numeric id are rejected by all three
handlers; the id 1 is accepted and reaches the service. -/
theorem handlers_id_validation_witness :
    getTodoByIDHandler rfindSample "0" =
      (⟨400, HttpBody.errorObj "Invalid todo ID provided"⟩, false) ∧
    deleteTodoHandler rfindSample rdeleteOk "abc" =
      (⟨400, HttpBody.errorObj "Invalid todo ID provided"⟩, false) ∧
    (getTodoByIDHandler rfindSample "1").2 = true ∧
    (updateTodoHandler rfindSample rupdateOk "1"
      (Except.ok ⟨none, none⟩)).2 = true :=
  ⟨((handlers_id_validation "0" rfindSample rupdateOk rdeleteOk
      (Except.ok ⟨none, none⟩)).1 (Or.inr (by decide))).1,
   ((handlers_id_validation "abc" rfindSample rupdateOk rdeleteOk
      (Except.ok ⟨none, none⟩)).1 (Or.inl (by decide))).2.2,
   ((handlers_id_validation "1" rfindSample rupdateOk rdeleteOk
      (Except.ok ⟨none, none⟩)).2 1 (by decide) (by decide)).1,
   ((handlers_id_validation "1" rfindSample rupdateOk rdeleteOk
      (Except.ok ⟨none, none⟩)).2 1 (by decide) (by decide)).2.2
      ⟨none, none⟩ rfl⟩

/-- C8: a store whose listing succeeds with the empty list makes
`GetAllTodos` succeed with the empty DTO sequence (never an error) and the
handler answer 200 with the empty list; in general a successful listing is
mapped elementwise, each entity to exactly one response DTO. -/
theorem getAllTodos_empty_and_map (todos : List Todo) :
    GetAllTodos (Except.ok []) =
      (Except.ok ([] : List TodoResponse), [RepoOp.getAll]) ∧
    getAllTodosHandler (Except.ok []) = ⟨200, HttpBody.todoListJson []⟩ ∧
    GetAllTodos (Except.ok todos) =
      (Except.ok (todos.map todoToResponse), [RepoOp.getAll]) ∧
    (todos.map todoToResponse).length = todos.length :=
  ⟨rfl, rfl, rfl, todos.length_map todoToResponse⟩

/-- C9: during `CreateTodo`, two arbitrary distinct store failures are
indistinguishable to the caller: the returned error is the same fixed
generic message, so the content of the underlying store error does not
influence the error value the caller receives. -/
theorem createTodo_store_error_not_leaked (req : CreateTodoRequest)
    (e₁ e₂ : String) :
    CreateTodo (fun _ => Except.error e₁) req =
      CreateTodo (fun _ => Except.error e₂) req ∧
    (req.title ≠ "" →
      (CreateTodo (fun _ => Except.error e₁) req).1 =
        Except.error "failed to create todo item") := by
  by_cases h : req.title = "" <;> simp [CreateTodo, h]

/-- C9 witness: two concrete store failures produce identical results, and
the caller sees only the fixed message. -/
theorem createTodo_store_error_not_leaked_witness :
    CreateTodo (fun _ => Except.error "disk full") ⟨"buy milk", 0⟩ =
      CreateTodo (fun _ => Except.error "connection reset") ⟨"buy milk", 0⟩ ∧
    (CreateTodo (fun _ => Except.error "disk full") ⟨"buy milk", 0⟩).1 =
      Except.error "failed to create todo item" :=
  ⟨(createTodo_store_error_not_leaked ⟨"buy milk", 0⟩ "disk full"
      "connection reset").1,
   (createTodo_store_error_not_leaked ⟨"buy milk", 0⟩ "disk full"
      "connection reset").2 (by decide)⟩

/-- Character 22 of a syntax-error message is the `b` of `badly-formed`. -/
theorem syntaxErrMsg_char22 (off : Nat) :
    (syntaxErrMsg off).data[22]? = some 'b' := by
  have h : (syntaxErrMsg off).data =
      "Request body contains badly-formed JSON (at position ".data ++
        ((toString off).data ++ ")".data) := by
    simp [syntaxErrMsg, string_data_append, List.append_assoc]
  rw [h]
  exact getElem_append_left_of_some _ _ _ _ (by decide)

/-- Character 22 of a type-error message is the `a` of `an invalid`. -/
theorem typeErrMsg_char22 (f : String) (off : Nat) :
    (typeErrMsg f off).data[22]? = some 'a' := by
  have h : (typeErrMsg f off).data =
      "Request body contains an invalid value for the ".data ++
        ((goQuote f).data ++ ((" field (at position ").data ++
          ((toString off).data ++ ")".data))) := by
    simp [typeErrMsg, string_data_append, List.append_assoc]
  rw [h]
  exact getElem_append_left_of_some _ _ _ _ (by decide)

/-- Character 22 of an unknown-field message is the `u` of `unknown`. -/
theorem unknownFieldMsg_char22 (name : String) :
    (unknownFieldMsg name).data[22]? = some 'u' := by
  have h : (unknownFieldMsg name).data =
      "Request body contains unknown field ".data ++ name.data := by
    simp [unknownFieldMsg, string_data_append]
  rw [h]
  exact getElem_append_left_of_some _ _ _ _ (by decide)

/-- The type-error message contains the field name. -/
theorem typeErrMsg_names_field (f : String) (off : Nat) :
    f.data <:+: (typeErrMsg f off).data := by
  apply substring_of_parts f _
    ("Request body contains an invalid value for the ".data ++ "\"".data)
    ("\"".data ++ (" field (at position " ++ toString off ++ ")").data)
  simp [typeErrMsg, goQuote, string_data_append, List.append_assoc]

/-- The unknown-field message contains the field name. -/
theorem unknownFieldMsg_names_field (name : String) :
    name.data <:+: (unknownFieldMsg name).data := by
  apply substring_of_parts name _
    "Request body contains unknown field ".data []
  simp [unknownFieldMsg, string_data_append]

/-- C2 (counterexample): on `PUT /todos/1`, an unknown-field decode failure
and a malformed-JSON decode failure are both answered 400 with the same
fixed message `Invalid request body`, which does not name the unknown field
— so on PUT the three decode categories do not get distinct
field/position-specific messages, and an unknown field does not yield a
message naming it. -/
theorem updateHandler_generic_decode_message :
    updateTodoHandler rfindSample rupdateOk "1"
        (Except.error (DecodeError.unknownField "\"foo\"")) =
      (⟨400, HttpBody.errorObj "Invalid request body"⟩, false) ∧
    updateTodoHandler rfindSample rupdateOk "1"
        (Except.error (DecodeError.syntaxError 3)) =
      (⟨400, HttpBody.errorObj "Invalid request body"⟩, false) ∧
    ¬ ("foo".data <:+: "Invalid request body".data) :=
  ⟨by decide, by decide, by decide⟩

/-- C2 (amended): the distinct decode-failure messages belong to
`POST /todos`: `createTodoHandler` answers a malformed-JSON error, a
wrong-typed field and an unknown field each with 400 and its own message —
position-specific for syntax errors, field-naming for the other two, and
the three pairwise distinct — whereas `updateTodoHandler`
(`PUT /todos/id`, any valid id) answers every decode failure with 400 and
the one fixed message `Invalid request body`. -/
theorem decode_error_dispatch (off off₂ : Nat) (f name : String)
    (rc : Todo → Except String StoreAssigned) (rf : Nat → FindResult)
    (ru : Todo → Option String) (idStr : String) (e : DecodeError) (n : Nat) :
    createTodoHandler rc (Except.error (DecodeError.syntaxError off)) =
      (⟨400, HttpBody.errorObj (syntaxErrMsg off)⟩, false) ∧
    createTodoHandler rc (Except.error (DecodeError.unmarshalTypeError f off)) =
      (⟨400, HttpBody.errorObj (typeErrMsg f off)⟩, false) ∧
    createTodoHandler rc (Except.error (DecodeError.unknownField name)) =
      (⟨400, HttpBody.errorObj (unknownFieldMsg name)⟩, false) ∧
    f.data <:+: (typeErrMsg f off).data ∧
    name.data <:+: (unknownFieldMsg name).data ∧
    syntaxErrMsg off ≠ typeErrMsg f off₂ ∧
    syntaxErrMsg off ≠ unknownFieldMsg name ∧
    unknownFieldMsg name ≠ typeErrMsg f off₂ ∧
    (parseUint64 idStr = some n → n ≠ 0 →
      updateTodoHandler rf ru idStr (Except.error e) =
        (⟨400, HttpBody.errorObj "Invalid request body"⟩, false)) := by
  refine ⟨rfl, rfl, rfl, typeErrMsg_names_field f off,
    unknownFieldMsg_names_field name,
    data_ne_of_getElem _ _ 22 'b' 'a' (syntaxErrMsg_char22 off)
      (typeErrMsg_char22 f off₂) (by decide),
    data_ne_of_getElem _ _ 22 'b' 'u' (syntaxErrMsg_char22 off)
      (unknownFieldMsg_char22 name) (by decide),
    data_ne_of_getElem _ _ 22 'u' 'a' (unknownFieldMsg_char22 name)
      (typeErrMsg_char22 f off₂) (by decide),
    ?_⟩
  intro hn hne
  simp [updateTodoHandler, hn, hne]

/-- C2 witness: the amended theorem at a concrete unknown field on POST and
a concrete decode failure on PUT with a valid id. -/
theorem decode_error_dispatch_witness :
    createTodoHandler rcreateOk
        (Except.error (DecodeError.unknownField "\"foo\"")) =
      (⟨400, HttpBody.errorObj (unknownFieldMsg "\"foo\"")⟩, false) ∧
    updateTodoHandler rfindSample rupdateOk "1"
        (Except.error DecodeError.eof) =
      (⟨400, HttpBody.errorObj "Invalid request body"⟩, false) :=
  ⟨(decode_error_dispatch 0 0 "completed" "\"foo\"" rcreateOk rfindSample
      rupdateOk "1" DecodeError.eof 1).2.2.1,
   (decode_error_dispatch 0 0 "completed" "\"foo\"" rcreateOk rfindSample
      rupdateOk "1" DecodeError.eof 1).2.2.2.2.2.2.2.2 (by decide)
      (by decide)⟩

/-- A string `a ++ suf` where `suf` splits as a space, `not found` and a
rest contains the dispatch substring. -/
theorem mentionsNotFound_of_suffix_parts (a suf : String) (r : List Char)
    (h : suf.data = [' '] ++ "not found".data ++ r) :
    mentionsNotFound (a ++ suf) := by
  apply substring_of_parts "not found" _ (a.data ++ [' ']) r
  simp [string_data_append, h, List.append_assoc]

/-- The `GetTodoByID` not-found message mentions `not found`. -/
theorem mentionsNotFound_get_msg (id : Nat) :
    mentionsNotFound ("todo with ID " ++ toString id ++ " not found") := by
  exact mentionsNotFound_of_suffix_parts ("todo with ID " ++ toString id)
    " not found" [] (by decide)

/-- The `UpdateTodo` not-found message mentions `not found`. -/
theorem mentionsNotFound_update_msg (id : Nat) :
    mentionsNotFound
      ("todo with ID " ++ toString id ++ " not found for update") := by
  exact mentionsNotFound_of_suffix_parts ("todo with ID " ++ toString id)
    " not found for update" " for update".data (by decide)

/-- The `DeleteTodo` not-found message mentions `not found`. -/
theorem mentionsNotFound_delete_msg (id : Nat) :
    mentionsNotFound
      ("todo with ID " ++ toString id ++ " not found for deletion") := by
  exact mentionsNotFound_of_suffix_parts ("todo with ID " ++ toString id)
    " not found for deletion" " for deletion".data (by decide)

/-- C10: in each id-based service operation, the returned error message
contains the substring `not found` exactly when the repository's `findByID`
reported `gorm.ErrRecordNotFound`; consequently the handler's
substring-based dispatch sends exactly the record-not-found outcomes to 404
and every other service failure to 500. -/
theorem service_not_found_error_channel (rf : Nat → FindResult)
    (ru : Todo → Option String) (rd : Nat → Option String) (id : Nat)
    (req : UpdateTodoRequest) (idStr : String) (m mu md : String) :
    ((GetTodoByID rf id).1 = Except.error m →
      (mentionsNotFound m ↔ rf id = FindResult.recordNotFound)) ∧
    ((UpdateTodo rf ru id req).1 = Except.error mu →
      (mentionsNotFound mu ↔ rf id = FindResult.recordNotFound)) ∧
    ((DeleteTodo rf rd id).1 = Except.error md →
      (mentionsNotFound md ↔ rf id = FindResult.recordNotFound)) ∧
    (parseUint64 idStr = some id → id ≠ 0 →
      (((getTodoByIDHandler rf idStr).1.status = 404 ↔
          rf id = FindResult.recordNotFound) ∧
        ((getTodoByIDHandler rf idStr).1.status = 500 ↔
          (∃ s, rf id = FindResult.storeError s)))) := by
  refine ⟨?_, ?_, ?_, ?_⟩
  · intro hm
    cases hf : rf id with
    | found t => rw [GetTodoByID, hf] at hm; exact absurd hm (by simp)
    | recordNotFound =>
        rw [GetTodoByID, hf] at hm
        simp only [Except.error.injEq] at hm
        subst hm
        exact iff_of_true (mentionsNotFound_get_msg id) rfl
    | storeError s =>
        rw [GetTodoByID, hf] at hm
        simp only [Except.error.injEq] at hm
        subst hm
        exact iff_of_false (by decide) (by simp)
  · intro hmu
    cases hf : rf id with
    | found t =>
        simp only [UpdateTodo, hf] at hmu
        refine iff_of_false ?_ (by simp)
        split at hmu
        · exact absurd hmu (by simp)
        · split at hmu
          · simp only [Except.error.injEq] at hmu
            subst hmu
            decide
          · exact absurd hmu (by simp)
    | recordNotFound =>
        rw [UpdateTodo, hf] at hmu
        simp only [Except.error.injEq] at hmu
        subst hmu
        exact iff_of_true (mentionsNotFound_update_msg id) rfl
    | storeError s =>
        rw [UpdateTodo, hf] at hmu
        simp only [Except.error.injEq] at hmu
        subst hmu
        exact iff_of_false (by decide) (by simp)
  · intro hmd
    cases hf : rf id with
    | found t =>
        simp only [DeleteTodo, hf] at hmd
        refine iff_of_false ?_ (by simp)
        split at hmd
        · simp only [Except.error.injEq] at hmd
          subst hmd
          decide
        · exact absurd hmd (by simp)
    | recordNotFound =>
        rw [DeleteTodo, hf] at hmd
        simp only [Except.error.injEq] at hmd
        subst hmd
        exact iff_of_true (mentionsNotFound_delete_msg id) rfl
    | storeError s =>
        rw [DeleteTodo, hf] at hmd
        simp only [Except.error.injEq] at hmd
        subst hmd
        exact iff_of_false (by decide) (by simp)
  · intro hp hne
    cases hf : rf id with
    | found t =>
        simp [getTodoByIDHandler, hp, hne, GetTodoByID, hf]
    | recordNotFound =>
        simp only [getTodoByIDHandler, hp, if_neg hne, GetTodoByID, hf]
        rw [if_pos (mentionsNotFound_get_msg id)]
        simp
    | storeError s =>
        simp only [getTodoByIDHandler, hp, if_neg hne, GetTodoByID, hf]
        rw [if_neg (by decide : ¬ mentionsNotFound "failed to retrieve todo item")]
        simp

/-- C10 witness: the channel theorem at id 2 on a store without that id:
each service message mentions `not found` and the GET handler answers
404. -/
theorem service_not_found_error_channel_witness :
    mentionsNotFound ("todo with ID " ++ toString 2 ++ " not found") ∧
    mentionsNotFound ("todo with ID " ++ toString 2 ++
      " not found for update") ∧
    mentionsNotFound ("todo with ID " ++ toString 2 ++
      " not found for deletion") ∧
    (getTodoByIDHandler rfindSample "2").1.status = 404 :=
  ⟨((service_not_found_error_channel rfindSample rupdateOk rdeleteOk 2
      ⟨none, none⟩ "2" ("todo with ID " ++ toString 2 ++ " not found")
      ("todo with ID " ++ toString 2 ++ " not found for update")
      ("todo with ID " ++ toString 2 ++ " not found for deletion")).1
      (by decide)).mpr (by decide),
   ((service_not_found_error_channel rfindSample rupdateOk rdeleteOk 2
      ⟨none, none⟩ "2" ("todo with ID " ++ toString 2 ++ " not found")
      ("todo with ID " ++ toString 2 ++ " not found for update")
      ("todo with ID " ++ toString 2 ++ " not found for deletion")).2.1
      (by decide)).mpr (by decide),
   ((service_not_found_error_channel rfindSample rupdateOk rdeleteOk 2
      ⟨none, none⟩ "2" ("todo with ID " ++ toString 2 ++ " not found")
      ("todo with ID " ++ toString 2 ++ " not found for update")
      ("todo with ID " ++ toString 2 ++ " not found for deletion")).2.2.1
      (by decide)).mpr (by decide),
   (((service_not_found_error_channel rfindSample rupdateOk rdeleteOk 2
      ⟨none, none⟩ "2" ("todo with ID " ++ toString 2 ++ " not found")
      ("todo with ID " ++ toString 2 ++ " not found for update")
      ("todo with ID " ++ toString 2 ++ " not found for deletion")).2.2.2
      (by decide) (by decide)).1).mpr (by decide)⟩

end TodoBackend
